import Mathlib

/-!
Verification of the request-dispatch and response-normalization layer of the
Piepmatz Twitter client (`src/twitterapi.cpp` and its refactored variant).

The C++ handlers are shallowly embedded as pure Lean functions: decoded JSON
bodies become a `Json` inductive, `QVariantMap` values become association
lists with Qt `insert`/`value` semantics, network callbacks become functions
from a decoded outcome to the emitted signal.  The Qt transport, OAuth
signing and the JSON byte-level parser are treated as boundaries: handlers
receive the decoded document (any non-object/non-array decode failure is
represented by a non-`obj`/non-`arr` value, which is exactly what
`QJsonDocument::isObject()`/`isArray()` observe).
-/

namespace Piepmatz

/-- JSON values as seen through `QJsonDocument`/`QJsonValue`. -/
inductive Json where
  | null
  | bool (b : Bool)
  | num (n : Int)
  | str (s : String)
  | arr (elems : List Json)
  | obj (fields : List (String × Json))

/-- QJsonValue::toObject: returns the fields of an object, and the empty
object for any other value (Qt default-constructs). -/
def Json.toObjectFields : Json → List (String × Json)
  | .obj fields => fields
  | _ => []

/-- QJsonValue::toArray: the element list of an array, else empty. -/
def Json.toArrayElems : Json → List Json
  | .arr elems => elems
  | _ => []

/-- QJsonValue::toInt with Qt's default of 0 for non-numbers. -/
def Json.toIntDef : Json → Int
  | .num n => n
  | _ => 0

/-- QJsonValue::toString with Qt's default of the empty string. -/
def Json.toStrDef : Json → String
  | .str s => s
  | _ => ""

/-- QJsonObject::value: the value stored under a key, `Undefined` (here
`Json.null`) when absent.  QJsonObject keys are unique; lookup of the first
matching entry models it. -/
def objValue (fields : List (String × Json)) (key : String) : Json :=
  match fields.find? (fun p => p.1 == key) with
  | some p => p.2
  | none => .null

/-- QJsonObject::contains. -/
def objContains (fields : List (String × Json)) (key : String) : Bool :=
  (fields.find? (fun p => p.1 == key)).isSome

/-- QVariant values, as far as this layer stores them. -/
inductive Variant where
  | null
  | bool (b : Bool)
  | int (n : Int)
  | str (s : String)
  | vlist (elems : List Variant)
  | vmap (fields : List (String × Variant))

/-- A QVariantMap, modelled as an association list with unique keys kept by
construction; only `insert`/`value`/`contains` are used by the source. -/
def VMap := List (String × Variant)

/-- QVariantMap::insert: overwrites any entry with the same key. -/
def vmInsert (m : List (String × Variant)) (key : String) (v : Variant) :
    List (String × Variant) :=
  m.filter (fun p => p.1 != key) ++ [(key, v)]

/-- QVariantMap::value as an `Option` (Qt returns an invalid QVariant when
the key is absent). -/
def vmValue (m : List (String × Variant)) (key : String) : Option Variant :=
  (m.find? (fun p => p.1 == key)).map (fun p => p.2)

/-- QVariantMap::value with Qt's invalid-variant default. -/
def vmValueD (m : List (String × Variant)) (key : String) : Variant :=
  (vmValue m key).getD .null

/-- QVariantMap::contains. -/
def vmContains (m : List (String × Variant)) (key : String) : Bool :=
  (m.find? (fun p => p.1 == key)).isSome

mutual

/-- QJsonValue::toVariant, as performed by QJsonObject::toVariantMap and
QJsonArray::toVariantList. -/
def Json.toVariant : Json → Variant
  | .null => .null
  | .bool b => .bool b
  | .num n => .int n
  | .str s => .str s
  | .arr elems => .vlist (jsonElemsToVariantList elems)
  | .obj fields => .vmap (jsonFieldsToVariantMap fields)

def jsonElemsToVariantList : List Json → List Variant
  | [] => []
  | v :: rest => v.toVariant :: jsonElemsToVariantList rest

def jsonFieldsToVariantMap : List (String × Json) → List (String × Variant)
  | [] => []
  | (k, v) :: rest => (k, v.toVariant) :: jsonFieldsToVariantMap rest

end

/-- The body of the foreach loop in TwitterApi::parseErrorResponse (lines
1393-1397): one "errors" entry overwrites the report's "code"
(QString::number of the entry's numeric code) and "message" fields. -/
def parseErrorStep (resp : List (String × Variant)) (errorsValue : Json) :
    List (String × Variant) :=
  let errorElementObject := errorsValue.toObjectFields
  let resp := vmInsert resp "code"
    (.str (toString (objValue errorElementObject "code").toIntDef))
  vmInsert resp "message"
    (.str (objValue errorElementObject "message").toStrDef)

/-- TwitterApi::parseErrorResponse (twitterapi.cpp lines 1384-1401): builds
the error report map.  The transport error string is stored under
"message"; if the error body decodes to a JSON object with an "errors"
array, each entry in turn overwrites "code" and "message". -/
def parseErrorResponse (errorText : String) (responseText : Json) :
    List (String × Variant) :=
  let errorResponse := vmInsert [] "message" (.str errorText)
  match responseText with
  | .obj fields =>
    match objValue fields "errors" with
    | .arr errorsList => errorsList.foldl parseErrorStep errorResponse
    | _ => errorResponse
  | _ => errorResponse

/-- The report's remote error code field, when one was stored.  The source
compares `parsedErrorResponse.value("code") == "136"`: the field is either
absent (invalid QVariant, never equal to a string) or the string stored by
`parseErrorResponse`. -/
def errorCode (resp : List (String × Variant)) : Option String :=
  match vmValue resp "code" with
  | some (.str s) => some s
  | _ => none

/-- The report's human-readable message (`value("message").toString()`). -/
def errMessage (resp : List (String × Variant)) : String :=
  match vmValue resp "message" with
  | some (.str s) => s
  | _ => ""

/-- Decides whether a decoded error body is a JSON object carrying an
"errors" array (the only shape from which `parseErrorResponse` reads). -/
def hasErrorsArray : Json → Bool
  | .obj fields =>
    match objValue fields "errors" with
    | .arr _ => true
    | _ => false
  | _ => false

/-- DEFAULT_ERROR_MESSAGE from twitterapi.h (the header is not under src/;
the macro's value is the literal used inline by the pre-refactor handlers,
e.g. twitterapi.cpp line 1425). -/
def DEFAULT_ERROR_MESSAGE : String := "Piepmatz couldn\x27t understand Twitter\x27s response!"

/-- Static configuration of the API layer: whether an alternate ("secret")
identity requestor was supplied at construction
(`secretIdentityRequestor != nullptr`). -/
structure ApiConfig where
  hasSecretIdentity : Bool

/-- The credential context a request is signed with. -/
inductive Identity where
  | primary
  | secret

/-- The sanitization in TwitterApi::showStatus (lines 557-563): a status id
carrying a query string is cut at the first question mark. -/
def sanitizeStatusId (statusId : String) : String :=
  String.mk (statusId.data.takeWhile (fun c => c != '?'))

/-- One in-flight show-status exchange: the "id" query parameter of the
request URL, the requestor it was signed with, and whether the
HEADER_NO_RECURSION marker was set on the request. -/
structure ShowStatusExchange where
  statusId : String
  identity : Identity
  fallbackHeader : Bool

/-- TwitterApi::showStatus (lines 556-593): dispatches one exchange.  The
secret identity requestor is used, and the no-recursion header set, exactly
when the caller asked for the secret identity and one is configured. -/
def showStatus (cfg : ApiConfig) (statusId : String) (useSecretIdentity : Bool) :
    ShowStatusExchange :=
  let sanitizedStatus := sanitizeStatusId statusId
  if useSecretIdentity && cfg.hasSecretIdentity then
    { statusId := sanitizedStatus, identity := .secret, fallbackHeader := true }
  else
    { statusId := sanitizedStatus, identity := .primary, fallbackHeader := false }

/-- The decoded terminal outcome of one network exchange: either the reply
finished without error and its body decoded to `body`, or the error signal
fired with the transport error string and the (decoded) error body.  Qt
fires `finished` after `error` as well, but the finished handlers return
early on `reply->error() != NoError`, so each exchange runs exactly one
handler body. -/
inductive NetOutcome where
  | ok (body : Json)
  | err (errorText : String) (body : Json)

/-- A signal emitted on the show-status channels. -/
inductive ShowStatusEmit where
  | successful (tweet : List (String × Variant))
  | error (message : String)

/-- The effect of a show-status completion handler: either a new exchange is
dispatched (identity fallback) or a signal is emitted. -/
inductive ShowStatusStep where
  | redispatch (ex : ShowStatusExchange)
  | emit (e : ShowStatusEmit)

/-- The placeholder ("fake tweet") built by TwitterApi::handleShowStatusError
(lines 1633-1656), field for field in source order. -/
def fakeTweet (statusId : String) (message : String) : List (String × Variant) :=
  let fakeTweet := vmInsert [] "fakeTweet" (.bool true)
  let fakeUser := vmInsert [] "name" (.str "")
  let fakeUser := vmInsert fakeUser "verified" (.bool false)
  let fakeUser := vmInsert fakeUser "protected" (.bool false)
  let fakeUser := vmInsert fakeUser "profile_image_url_https" (.str "")
  let fakeTweet := vmInsert fakeTweet "user" (.vmap fakeUser)
  let fakeTweet := vmInsert fakeTweet "source" (.str "Piepmatz")
  let fakeTweet := vmInsert fakeTweet "retweeted" (.bool false)
  let fakeTweet := vmInsert fakeTweet "favorited" (.bool false)
  let fakeEntities := vmInsert [] "hashtags" (.vlist [])
  let fakeEntities := vmInsert fakeEntities "symbols" (.vlist [])
  let fakeEntities := vmInsert fakeEntities "urls" (.vlist [])
  let fakeEntities := vmInsert fakeEntities "user_mentions" (.vlist [])
  let fakeTweet := vmInsert fakeTweet "entities" (.vmap fakeEntities)
  let fakeTweet := vmInsert fakeTweet "created_at" (.str "Sun Jan 05 13:05:00 +0000 2020")
  let fakeTweet := vmInsert fakeTweet "id_str" (.str statusId)
  vmInsert fakeTweet "full_text" (.str message)

/-- TwitterApi::handleShowStatusError (lines 1615-1659).  On a blocked error
(remote code "136") with a secret identity configured and no no-recursion
header on the failing request, the same status id is re-requested under the
secret identity; otherwise the placeholder is emitted on the success
channel. -/
def handleShowStatusError (cfg : ApiConfig) (ex : ShowStatusExchange)
    (errorText : String) (body : Json) : ShowStatusStep :=
  let parsedErrorResponse := parseErrorResponse errorText body
  if cfg.hasSecretIdentity && (errorCode parsedErrorResponse == some "136")
      && !ex.fallbackHeader then
    .redispatch (showStatus cfg ex.statusId true)
  else
    .emit (.successful (fakeTweet ex.statusId (errMessage parsedErrorResponse)))

/-- TwitterApi::handleShowStatusFinished (lines 1661-1682), reached when the
reply carried no network error. -/
def handleShowStatusFinished (body : Json) : ShowStatusEmit :=
  match body with
  | .obj responseObject => .successful (jsonFieldsToVariantMap responseObject)
  | _ => .error DEFAULT_ERROR_MESSAGE

/-- The single handler that runs for a show-status exchange's terminal
network outcome. -/
def stepShowStatus (cfg : ApiConfig) (ex : ShowStatusExchange) :
    NetOutcome → ShowStatusStep
  | .ok body => .emit (handleShowStatusFinished body)
  | .err errorText body => handleShowStatusError cfg ex errorText body

/-- A full show-status call with at most one fallback redispatch: `out1` is
the network outcome of the exchange dispatched by `showStatus`, `out2` the
outcome of the redispatched exchange when one is started.  The returned
list collects every signal the caller observes. -/
def runShowStatusCall (cfg : ApiConfig) (statusId : String)
    (useSecretIdentity : Bool) (out1 out2 : NetOutcome) : List ShowStatusEmit :=
  let ex1 := showStatus cfg statusId useSecretIdentity
  match stepShowStatus cfg ex1 out1 with
  | .emit e => [e]
  | .redispatch ex2 =>
    match stepShowStatus cfg ex2 out2 with
    | .emit e => [e]
    | .redispatch _ => []

/-- One in-flight user-timeline exchange (the "screen_name" query parameter,
identity, and no-recursion header), mirroring `ShowStatusExchange`. -/
structure UserTimelineExchange where
  screenName : String
  identity : Identity
  fallbackHeader : Bool

/-- TwitterApi::userTimeline (lines 639-672): same identity selection and
header marking as `showStatus`, without sanitization. -/
def userTimeline (cfg : ApiConfig) (screenName : String)
    (useSecretIdentity : Bool) : UserTimelineExchange :=
  if useSecretIdentity && cfg.hasSecretIdentity then
    { screenName := screenName, identity := .secret, fallbackHeader := true }
  else
    { screenName := screenName, identity := .primary, fallbackHeader := false }

/-- The effect of TwitterApi::handleUserTimelineError: a fallback redispatch
or an emission on the userTimelineError channel. -/
inductive UserTimelineStep where
  | redispatch (ex : UserTimelineExchange)
  | emitError (message : String)

/-- TwitterApi::handleUserTimelineError (lines 1525-1543). -/
def handleUserTimelineError (cfg : ApiConfig) (ex : UserTimelineExchange)
    (errorText : String) (body : Json) : UserTimelineStep :=
  let parsedErrorResponse := parseErrorResponse errorText body
  if cfg.hasSecretIdentity && (errorCode parsedErrorResponse == some "136")
      && !ex.fallbackHeader then
    .redispatch (userTimeline cfg ex.screenName true)
  else
    .emitError (errMessage parsedErrorResponse)

/-- A signal emitted on a list-result channel (search tweets, search users). -/
inductive ListEmit where
  | successful (results : List Variant)
  | error (message : String)

/-- The underlying status id of one search result entry, as computed inside
TwitterApi::handleSearchTweetsFinished (lines 1793-1799): the id of the
retweeted status when the entry is a retweet, else the entry's own id. -/
def searchTweetKey (currentObject : List (String × Json)) : String :=
  if objContains currentObject "retweeted_status" then
    (objValue (objValue currentObject "retweeted_status").toObjectFields "id_str").toStrDef
  else
    (objValue currentObject "id_str").toStrDef

/-- The de-duplication loop of TwitterApi::handleSearchTweetsFinished (lines
1790-1804), parameterized by the running `foundStatusIds` accumulator. -/
def dedupStatusesAux (foundStatusIds : List String) :
    List Json → List (List (String × Json))
  | [] => []
  | entry :: rest =>
    let currentObject := entry.toObjectFields
    let currentStatusId := searchTweetKey currentObject
    if foundStatusIds.contains currentStatusId then
      dedupStatusesAux foundStatusIds rest
    else
      currentObject :: dedupStatusesAux (foundStatusIds ++ [currentStatusId]) rest

/-- TwitterApi::handleSearchTweetsFinished (lines 1776-1809). -/
def handleSearchTweetsFinished (body : Json) : ListEmit :=
  match body with
  | .obj responseObject =>
    let originalResultsArray := (objValue responseObject "statuses").toArrayElems
    let resultsArray := dedupStatusesAux [] originalResultsArray
    .successful (resultsArray.map (fun o => Variant.vmap (jsonFieldsToVariantMap o)))
  | _ => .error DEFAULT_ERROR_MESSAGE

/-- A signal emitted on an object-result channel (follow, unfollow). -/
inductive MapEmit where
  | successful (result : List (String × Variant))
  | error (message : String)

/-- TwitterApi::handleFollowUserFinished (lines 1718-1737): on an object
response, the "following" field is removed and re-inserted as `true` before
the map is emitted. -/
def handleFollowUserFinished (body : Json) : MapEmit :=
  match body with
  | .obj responseObject =>
    let responseObject := responseObject.filter (fun p => p.1 != "following")
    let responseObject := responseObject ++ [("following", Json.bool true)]
    .successful (jsonFieldsToVariantMap responseObject)
  | _ => .error DEFAULT_ERROR_MESSAGE

/-- TwitterApi::handleUnfollowUserFinished (lines 1747-1766): symmetric to
follow, forcing "following" to `false`. -/
def handleUnfollowUserFinished (body : Json) : MapEmit :=
  match body with
  | .obj responseObject =>
    let responseObject := responseObject.filter (fun p => p.1 != "following")
    let responseObject := responseObject ++ [("following", Json.bool false)]
    .successful (jsonFieldsToVariantMap responseObject)
  | _ => .error DEFAULT_ERROR_MESSAGE

/-- The immediate effect of a search call: either a synchronous successful
emission with no network exchange, or the dispatch of one exchange with the
given O0 request parameters. -/
inductive SearchCall where
  | syncSuccess (results : List Variant)
  | dispatchExchange (requestParameters : List (String × String))

/-- TwitterApi::searchTweets (lines 772-803): an empty query emits an empty
successful list synchronously and returns before any request is built. -/
def searchTweets (query : String) : SearchCall :=
  if query.isEmpty then
    .syncSuccess []
  else
    .dispatchExchange [("tweet_mode", "extended"), ("q", query), ("count", "100"),
      ("include_entities", "true"), ("include_ext_alt_text", "true")]

/-- TwitterApi::searchUsers (lines 805-834): same short-circuit. -/
def searchUsers (query : String) : SearchCall :=
  if query.isEmpty then
    .syncSuccess []
  else
    .dispatchExchange [("tweet_mode", "extended"), ("q", query), ("count", "20"),
      ("include_entities", "true")]

/-- The error notification channels of the timeline operations involved in
claim C7. -/
inductive TimelineErrorChannel where
  | mentionsTimelineError
  | retweetTimelineError
  | userTimelineError
deriving DecidableEq

/-- TwitterApi::handleRetweetTimelineError (twitterapi.cpp lines 1499-1505):
the parsed message is emitted — through `mentionsTimelineError`. -/
def handleRetweetTimelineError (errorText : String) (body : Json) :
    TimelineErrorChannel × String :=
  (.mentionsTimelineError, errMessage (parseErrorResponse errorText body))

/-- TwitterApi::genericHandlerFailure (refactored file, lines 159-166):
emits the parsed message through the wired-in error signal. -/
def genericHandlerFailure (errorSignal : TimelineErrorChannel)
    (errorText : String) (body : Json) : TimelineErrorChannel × String :=
  (errorSignal, errMessage (parseErrorResponse errorText body))

/-- The error signal TwitterApi::retweetTimeline wires into genericRequest in
the refactored file (line 286): STANDARD_REQ(TwitterApi::retweetTimeline)
expands to `&TwitterApi::retweetTimelineError` as the error signal. -/
def retweetTimelineWiredErrorSignal : TimelineErrorChannel :=
  .retweetTimelineError

/-- The double-quote character, written by code point to keep literals
unambiguous inside pattern strings. -/
def dquoteChar : Char := Char.ofNat 34

/-- The single-quote character. -/
def squoteChar : Char := Char.ofNat 39

/-- The character class matched by a Qt regular-expression `\s`:
space, tab, line feed, vertical tab, form feed, carriage return. -/
def isQtSpace (c : Char) : Bool :=
  c == ' ' || (9 ≤ c.toNat && c.toNat ≤ 13)

/-- Strips a literal character sequence from the front of the input,
returning the remainder on success. -/
def stripLit : List Char → List Char → Option (List Char)
  | [], cs => some cs
  | _ :: _, [] => none
  | l :: ls, c :: cs => if c == l then stripLit ls cs else none

/-- One attempted match, at the current position, of the charset pattern of
TwitterApi::handleGetOpenGraphFinished line 2390 — literal "charset", then
any run of whitespace, "=", then any run of whitespace/quotes, then a
captured (possibly empty) run of characters that are neither whitespace,
quote, comma nor ">".  Returns the capture and the input remaining after the
match. -/
def matchCharsetAt (cs : List Char) : Option (String × List Char) :=
  match stripLit "charset".data cs with
  | none => none
  | some cs1 =>
    match cs1.dropWhile isQtSpace with
    | [] => none
    | c :: cs2 =>
      if c == '=' then
        let cs3 := cs2.dropWhile
          (fun c => isQtSpace c || c == dquoteChar || c == squoteChar)
        let captured := cs3.takeWhile
          (fun c => !(isQtSpace c || c == dquoteChar || c == squoteChar
            || c == ',' || c == '>'))
        some (String.mk captured, cs3.drop captured.length)
      else none

/-- The global-match loop over the content-type header (lines 2391-2398):
leftmost matches collected in order, scanning resuming after each match,
each capture uppercased as harvested.  The fuel argument (initially the
input length) only serves termination; every step consumes at least one
character. -/
def extractCharsetsAux : Nat → List Char → List String
  | 0, _ => []
  | _, [] => []
  | fuel + 1, cs =>
    match matchCharsetAt cs with
    | some (captured, afterMatch) =>
      captured.toUpper :: extractCharsetsAux fuel afterMatch
    | none => extractCharsetsAux fuel cs.tail

/-- All charset tokens declared in a content-type header, in order of
appearance, uppercased (`availableCharsets` at line 2398). -/
def extractCharsets (contentTypeHeader : String) : List String :=
  extractCharsetsAux contentTypeHeader.data.length contentTypeHeader.data

/-- The charset chosen to decode the document (lines 2389-2402): the last
declared token when at least one token was declared and none of them is
UTF-8, and UTF-8 in every other case.  Decoding itself (QTextCodec) is a
library boundary. -/
def selectOpenGraphCharset (contentTypeHeader : String) : String :=
  let availableCharsets := extractCharsets contentTypeHeader
  if availableCharsets.length > 0 && !(availableCharsets.contains "UTF-8") then
    availableCharsets.getLastD "UTF-8"
  else
    "UTF-8"

/-- One attempted match, at the current position, of an og meta-tag pattern
(lines 2410, 2414, 2418, 2422): literal "<meta", at least one whitespace,
the quoted property attribute, at least one whitespace, a quoted content
attribute whose value — one or more non-quote characters — is captured. -/
def matchOgAt (property : String) (cs : List Char) : Option String :=
  match stripLit "<meta".data cs with
  | none => none
  | some cs1 =>
    match cs1 with
    | [] => none
    | c1 :: _ =>
      if isQtSpace c1 then
        match stripLit ("property=".data ++ [dquoteChar] ++ property.data
            ++ [dquoteChar]) (cs1.dropWhile isQtSpace) with
        | none => none
        | some cs2 =>
          match cs2 with
          | [] => none
          | c2 :: _ =>
            if isQtSpace c2 then
              match stripLit ("content=".data ++ [dquoteChar])
                  (cs2.dropWhile isQtSpace) with
              | none => none
              | some cs3 =>
                let captured := cs3.takeWhile (fun c => c != dquoteChar)
                match cs3.drop captured.length with
                | c3 :: _ =>
                  if c3 == dquoteChar && !captured.isEmpty then
                    some (String.mk captured)
                  else none
                | [] => none
            else none
      else none

/-- QRegExp::indexIn semantics for the rigid og patterns: the capture of the
leftmost match, scanning position by position. -/
def ogScan (property : String) : List Char → Option String
  | [] => none
  | c :: rest =>
    match matchOgAt property (c :: rest) with
    | some captured => some captured
    | none => ogScan property rest

/-- First (leftmost) match of an og meta-tag pattern in the decoded
document. -/
def ogFirstMatch (property : String) (resultDocument : String) : Option String :=
  ogScan property resultDocument.data

/-- A signal emitted on the open-graph channels. -/
inductive OpenGraphEmit where
  | successful (openGraphData : List (String × Variant))
  | error (message : String)

/-- The tag-scanning and result-assembly tail of
TwitterApi::handleGetOpenGraphFinished (lines 2409-2438): collect the four
og tags, report a scraping failure when none matched, otherwise overwrite
the url with the request address and default the title to it. -/
def handleGetOpenGraphTags (requestAddress : String) (resultDocument : String) :
    OpenGraphEmit :=
  let openGraphData : List (String × Variant) := []
  let openGraphData := match ogFirstMatch "og:url" resultDocument with
    | some captured => vmInsert openGraphData "url" (.str captured)
    | none => openGraphData
  let openGraphData := match ogFirstMatch "og:image" resultDocument with
    | some captured => vmInsert openGraphData "image" (.str captured)
    | none => openGraphData
  let openGraphData := match ogFirstMatch "og:description" resultDocument with
    | some captured => vmInsert openGraphData "description" (.str captured)
    | none => openGraphData
  let openGraphData := match ogFirstMatch "og:title" resultDocument with
    | some captured => vmInsert openGraphData "title" (.str captured)
    | none => openGraphData
  if openGraphData.isEmpty then
    .error (requestAddress ++ " does not contain Open Graph data")
  else
    let openGraphData := vmInsert openGraphData "url" (.str requestAddress)
    let openGraphData :=
      if !vmContains openGraphData "title" then
        vmInsert openGraphData "title" (vmValueD openGraphData "url")
      else
        openGraphData
    .successful openGraphData

/-! ### Lemmas about the QVariantMap model -/

theorem vmInsert_ne_nil (m : List (String × Variant)) (key : String)
    (v : Variant) : vmInsert m key v ≠ [] := by
  simp [vmInsert]

theorem vmValue_vmInsert_self (m : List (String × Variant)) (key : String)
    (v : Variant) : vmValue (vmInsert m key v) key = some v := by
  induction m with
  | nil => simp [vmInsert, vmValue]
  | cons p m ih =>
    by_cases h : p.1 = key
    · have hd : vmInsert (p :: m) key v = vmInsert m key v := by
        simp [vmInsert, List.filter_cons, h]
      rw [hd]; exact ih
    · have hd : vmInsert (p :: m) key v = p :: vmInsert m key v := by
        simp [vmInsert, List.filter_cons, h]
      rw [hd]
      simpa [vmValue, List.find?_cons, h] using ih

theorem vmValue_vmInsert_ne (m : List (String × Variant)) (key key' : String)
    (v : Variant) (h : key' ≠ key) :
    vmValue (vmInsert m key v) key' = vmValue m key' := by
  induction m with
  | nil => simp [vmInsert, vmValue, List.find?_cons, Ne.symm h]
  | cons p m ih =>
    by_cases hp : p.1 = key
    · have hd : vmInsert (p :: m) key v = vmInsert m key v := by
        simp [vmInsert, List.filter_cons, hp]
      have hfind : vmValue (p :: m) key' = vmValue m key' := by
        have : p.1 ≠ key' := by rw [hp]; exact Ne.symm h
        simp [vmValue, List.find?_cons, this]
      rw [hd, hfind]; exact ih
    · have hd : vmInsert (p :: m) key v = p :: vmInsert m key v := by
        simp [vmInsert, List.filter_cons, hp]
      rw [hd]
      by_cases hk : p.1 = key'
      · simp [vmValue, List.find?_cons, hk]
      · simpa [vmValue, List.find?_cons, hk] using ih

theorem vmContains_eq_isSome (m : List (String × Variant)) (key : String) :
    vmContains m key = (vmValue m key).isSome := by
  simp [vmContains, vmValue]

/-! ### Claim C10: the error report keeps the last entry of the errors array -/

theorem foldl_parseErrorStep_last :
    ∀ (es : List Json) (resp : List (String × Variant)) (e : Json),
      es.getLast? = some e →
      ∃ r, es.foldl parseErrorStep resp = parseErrorStep r e := by
  intro es
  induction es with
  | nil => intro resp e h; simp at h
  | cons x t ih =>
    intro resp e h
    cases t with
    | nil =>
      simp only [List.getLast?_singleton, Option.some.injEq] at h
      exact ⟨resp, by simp [h]⟩
    | cons y t' =>
      rw [List.getLast?_cons_cons] at h
      simpa [List.foldl_cons] using ih (parseErrorStep resp x) e h

/-- Claim C10: when the decoded error body is a JSON object whose "errors"
field is an array with at least two entries, the error report carries the
numeric code and message of the LAST entry (each earlier entry having been
overwritten), which is what the identity-fallback check compares against
"136"; and for any body that is not a JSON object with an "errors" array,
the report's message is the transport's own error string and no code is
set. -/
theorem parseErrorResponse_last_error_wins
    (errorText : String) (fields : List (String × Json)) (es : List Json)
    (e : Json) (harr : objValue fields "errors" = Json.arr es)
    (_hlen : 2 ≤ es.length) (hlast : es.getLast? = some e) :
    (errorCode (parseErrorResponse errorText (Json.obj fields))
        = some (toString (objValue e.toObjectFields "code").toIntDef)
      ∧ errMessage (parseErrorResponse errorText (Json.obj fields))
        = (objValue e.toObjectFields "message").toStrDef)
    ∧ ∀ (errorText' : String) (body : Json), hasErrorsArray body = false →
        errMessage (parseErrorResponse errorText' body) = errorText'
        ∧ errorCode (parseErrorResponse errorText' body) = none := by
  constructor
  · have hparse : parseErrorResponse errorText (Json.obj fields)
        = es.foldl parseErrorStep (vmInsert [] "message" (.str errorText)) := by
      simp [parseErrorResponse, harr]
    obtain ⟨r, hr⟩ := foldl_parseErrorStep_last es
      (vmInsert [] "message" (.str errorText)) e hlast
    rw [hparse, hr]
    constructor
    · rw [errorCode, parseErrorStep]
      rw [vmValue_vmInsert_ne _ _ _ _ (by decide), vmValue_vmInsert_self]
    · rw [errMessage, parseErrorStep, vmValue_vmInsert_self]
  · intro errorText' body hbody
    cases body with
    | obj fields' =>
      rw [hasErrorsArray] at hbody
      constructor
      · rw [parseErrorResponse]
        rcases hv : objValue fields' "errors" with _ | b | n | s | elems | fs <;>
          simp [hv] at hbody ⊢ <;>
          simp [errMessage, vmValue_vmInsert_self]
      · rw [parseErrorResponse]
        rcases hv : objValue fields' "errors" with _ | b | n | s | elems | fs <;>
          simp [hv] at hbody ⊢ <;>
          simp [errorCode, vmValue, vmInsert]
    | null => exact ⟨by simp [parseErrorResponse, errMessage, vmValue_vmInsert_self],
        by simp [parseErrorResponse, errorCode, vmValue, vmInsert]⟩
    | bool b => exact ⟨by simp [parseErrorResponse, errMessage, vmValue_vmInsert_self],
        by simp [parseErrorResponse, errorCode, vmValue, vmInsert]⟩
    | num n => exact ⟨by simp [parseErrorResponse, errMessage, vmValue_vmInsert_self],
        by simp [parseErrorResponse, errorCode, vmValue, vmInsert]⟩
    | str s => exact ⟨by simp [parseErrorResponse, errMessage, vmValue_vmInsert_self],
        by simp [parseErrorResponse, errorCode, vmValue, vmInsert]⟩
    | arr elems => exact ⟨by simp [parseErrorResponse, errMessage, vmValue_vmInsert_self],
        by simp [parseErrorResponse, errorCode, vmValue, vmInsert]⟩

/-- Witness for C10 at a concrete two-entry errors array: the report keeps
code 136 and message "blocked" from the second entry. -/
theorem parseErrorResponse_last_error_wins_witness :
    (errorCode (parseErrorResponse "transport"
        (Json.obj [("errors", Json.arr
          [Json.obj [("code", Json.num 34), ("message", Json.str "first")],
           Json.obj [("code", Json.num 136), ("message", Json.str "blocked")]])]))
      = some (toString (objValue (Json.obj [("code", Json.num 136),
          ("message", Json.str "blocked")]).toObjectFields "code").toIntDef)
    ∧ errMessage (parseErrorResponse "transport"
        (Json.obj [("errors", Json.arr
          [Json.obj [("code", Json.num 34), ("message", Json.str "first")],
           Json.obj [("code", Json.num 136), ("message", Json.str "blocked")]])]))
      = (objValue (Json.obj [("code", Json.num 136),
          ("message", Json.str "blocked")]).toObjectFields "message").toStrDef)
    ∧ ∀ (errorText' : String) (body : Json), hasErrorsArray body = false →
        errMessage (parseErrorResponse errorText' body) = errorText'
        ∧ errorCode (parseErrorResponse errorText' body) = none :=
  parseErrorResponse_last_error_wins "transport"
    [("errors", Json.arr
      [Json.obj [("code", Json.num 34), ("message", Json.str "first")],
       Json.obj [("code", Json.num 136), ("message", Json.str "blocked")]])]
    [Json.obj [("code", Json.num 34), ("message", Json.str "first")],
     Json.obj [("code", Json.num 136), ("message", Json.str "blocked")]]
    (Json.obj [("code", Json.num 136), ("message", Json.str "blocked")])
    rfl (by decide) rfl

/-! ### Claims C1-C3: identity fallback and placeholder synthesis -/

theorem takeWhile_idem_char (p : Char → Bool) (l : List Char) :
    (l.takeWhile p).takeWhile p = l.takeWhile p := by
  induction l with
  | nil => simp
  | cons c l ih =>
    by_cases h : p c <;> simp [List.takeWhile_cons, h, ih]

theorem sanitizeStatusId_idem (statusId : String) :
    sanitizeStatusId (sanitizeStatusId statusId) = sanitizeStatusId statusId := by
  simp [sanitizeStatusId, takeWhile_idem_char]

/-- Claim C1: a show-status exchange failing with remote code 136, with the
secret identity configured and the original dispatch not a fallback
attempt, is answered by exactly one redispatch for the same status id under
the secret identity, marked as a fallback attempt; the original failure is
not surfaced, and whatever outcome the retried exchange has is the one
signal the caller observes. -/
theorem showStatus_blocked_fallback_retry
    (cfg : ApiConfig) (hsec : cfg.hasSecretIdentity = true)
    (statusId errorText : String) (body : Json)
    (hcode : errorCode (parseErrorResponse errorText body) = some "136")
    (out2 : NetOutcome) :
    ∃ ex2 : ShowStatusExchange,
      stepShowStatus cfg (showStatus cfg statusId false) (.err errorText body)
        = .redispatch ex2
      ∧ ex2.statusId = (showStatus cfg statusId false).statusId
      ∧ ex2.identity = .secret
      ∧ ex2.fallbackHeader = true
      ∧ ∃ e, stepShowStatus cfg ex2 out2 = .emit e
          ∧ runShowStatusCall cfg statusId false (.err errorText body) out2 = [e] := by
  have hex1 : showStatus cfg statusId false
      = { statusId := sanitizeStatusId statusId, identity := .primary,
          fallbackHeader := false } := by
    simp [showStatus]
  have hex2 : showStatus cfg (sanitizeStatusId statusId) true
      = { statusId := sanitizeStatusId statusId, identity := .secret,
          fallbackHeader := true } := by
    simp [showStatus, hsec, sanitizeStatusId_idem]
  have hstep1 : stepShowStatus cfg (showStatus cfg statusId false)
      (.err errorText body)
      = .redispatch ⟨sanitizeStatusId statusId, .secret, true⟩ := by
    rw [hex1, stepShowStatus, handleShowStatusError]
    simp only [hsec, hcode]
    simp [hex2]
  have hstep2 : ∃ e,
      stepShowStatus cfg ⟨sanitizeStatusId statusId, .secret, true⟩ out2
        = .emit e := by
    cases out2 with
    | ok body' => exact ⟨handleShowStatusFinished body', rfl⟩
    | err errorText' body' =>
      refine ⟨.successful (fakeTweet (sanitizeStatusId statusId)
        (errMessage (parseErrorResponse errorText' body'))), ?_⟩
      rw [stepShowStatus, handleShowStatusError]
      simp
  obtain ⟨e, he⟩ := hstep2
  refine ⟨⟨sanitizeStatusId statusId, .secret, true⟩, hstep1, ?_, rfl, rfl,
    e, he, ?_⟩
  · rw [hex1]
  · simp only [runShowStatusCall, hstep1, he]

/-- Witness for C1: a concrete blocked response under configuration with a
secret identity; the original exchange redispatches and the caller sees
exactly the retried exchange's outcome. -/
theorem showStatus_blocked_fallback_retry_witness :
    ∃ ex2 : ShowStatusExchange,
      stepShowStatus ⟨true⟩ (showStatus ⟨true⟩ "12345" false)
        (.err "transport" (Json.obj [("errors", Json.arr
          [Json.obj [("code", Json.num 136), ("message", Json.str "blocked")]])]))
        = .redispatch ex2
      ∧ ex2.statusId = (showStatus ⟨true⟩ "12345" false).statusId
      ∧ ex2.identity = .secret
      ∧ ex2.fallbackHeader = true
      ∧ ∃ e, stepShowStatus ⟨true⟩ ex2 (.ok (Json.obj [])) = .emit e
          ∧ runShowStatusCall ⟨true⟩ "12345" false
              (.err "transport" (Json.obj [("errors", Json.arr
                [Json.obj [("code", Json.num 136),
                  ("message", Json.str "blocked")]])]))
              (.ok (Json.obj [])) = [e] :=
  showStatus_blocked_fallback_retry ⟨true⟩ rfl "12345" "transport"
    (Json.obj [("errors", Json.arr
      [Json.obj [("code", Json.num 136), ("message", Json.str "blocked")]])])
    rfl (.ok (Json.obj []))

/-- Claim C2: an exchange already marked as a fallback attempt (no-recursion
header set) never triggers another redispatch on failure: the show-status
handler falls through to placeholder synthesis and the user-timeline
handler to surfacing the error message. -/
theorem fallback_attempt_never_redispatches
    (cfg : ApiConfig) (ex : ShowStatusExchange) (hex : ex.fallbackHeader = true)
    (uex : UserTimelineExchange) (huex : uex.fallbackHeader = true)
    (errorText : String) (body : Json) :
    handleShowStatusError cfg ex errorText body
      = .emit (.successful (fakeTweet ex.statusId
          (errMessage (parseErrorResponse errorText body))))
    ∧ handleUserTimelineError cfg uex errorText body
      = .emitError (errMessage (parseErrorResponse errorText body)) := by
  constructor
  · rw [handleShowStatusError]; simp [hex]
  · rw [handleUserTimelineError]; simp [huex]

/-- Witness for C2 at a concrete fallback-marked exchange pair. -/
theorem fallback_attempt_never_redispatches_witness :
    handleShowStatusError ⟨true⟩ ⟨"1", .secret, true⟩ "net" Json.null
      = .emit (.successful (fakeTweet "1"
          (errMessage (parseErrorResponse "net" Json.null))))
    ∧ handleUserTimelineError ⟨true⟩ ⟨"alice", .secret, true⟩ "net" Json.null
      = .emitError (errMessage (parseErrorResponse "net" Json.null)) :=
  fallback_attempt_never_redispatches ⟨true⟩ ⟨"1", .secret, true⟩ rfl
    ⟨"alice", .secret, true⟩ rfl "net" Json.null

/-- Claim C3: when the secret identity is not configured, or the failing
call is already a fallback attempt, the show-status error handler emits a
synthetic placeholder through the success channel — id_str is the original
status id, full_text the parsed error message, with empty/false defaults
for the author block, the engagement flags and the entity collections — and
never a raw error. -/
theorem showStatus_placeholder_synthesis
    (cfg : ApiConfig) (ex : ShowStatusExchange) (errorText : String)
    (body : Json)
    (h : cfg.hasSecretIdentity = false ∨ ex.fallbackHeader = true) :
    handleShowStatusError cfg ex errorText body
      = .emit (.successful (fakeTweet ex.statusId
          (errMessage (parseErrorResponse errorText body))))
    ∧ vmValue (fakeTweet ex.statusId (errMessage (parseErrorResponse errorText body)))
        "id_str" = some (.str ex.statusId)
    ∧ vmValue (fakeTweet ex.statusId (errMessage (parseErrorResponse errorText body)))
        "full_text" = some (.str (errMessage (parseErrorResponse errorText body)))
    ∧ vmValue (fakeTweet ex.statusId (errMessage (parseErrorResponse errorText body)))
        "user" = some (.vmap [("name", .str ""), ("verified", .bool false),
          ("protected", .bool false), ("profile_image_url_https", .str "")])
    ∧ vmValue (fakeTweet ex.statusId (errMessage (parseErrorResponse errorText body)))
        "retweeted" = some (.bool false)
    ∧ vmValue (fakeTweet ex.statusId (errMessage (parseErrorResponse errorText body)))
        "favorited" = some (.bool false)
    ∧ vmValue (fakeTweet ex.statusId (errMessage (parseErrorResponse errorText body)))
        "entities" = some (.vmap [("hashtags", .vlist []), ("symbols", .vlist []),
          ("urls", .vlist []), ("user_mentions", .vlist [])])
    ∧ ∀ msg, handleShowStatusError cfg ex errorText body
        ≠ .emit (.error msg) := by
  have hmain : handleShowStatusError cfg ex errorText body
      = .emit (.successful (fakeTweet ex.statusId
          (errMessage (parseErrorResponse errorText body)))) := by
    rcases h with h | h
    · rw [handleShowStatusError]; simp [h]
    · rw [handleShowStatusError]; simp [h]
  refine ⟨hmain, rfl, rfl, rfl, rfl, rfl, rfl, ?_⟩
  intro msg hc
  rw [hmain] at hc
  simp at hc

/-- Witness for C3: no secret identity configured, concrete inputs. -/
theorem showStatus_placeholder_synthesis_witness :
    handleShowStatusError ⟨false⟩ ⟨"42", .primary, false⟩ "denied" Json.null
      = .emit (.successful (fakeTweet "42"
          (errMessage (parseErrorResponse "denied" Json.null))))
    ∧ vmValue (fakeTweet "42" (errMessage (parseErrorResponse "denied" Json.null)))
        "id_str" = some (.str "42")
    ∧ vmValue (fakeTweet "42" (errMessage (parseErrorResponse "denied" Json.null)))
        "full_text" = some (.str (errMessage (parseErrorResponse "denied" Json.null)))
    ∧ vmValue (fakeTweet "42" (errMessage (parseErrorResponse "denied" Json.null)))
        "user" = some (.vmap [("name", .str ""), ("verified", .bool false),
          ("protected", .bool false), ("profile_image_url_https", .str "")])
    ∧ vmValue (fakeTweet "42" (errMessage (parseErrorResponse "denied" Json.null)))
        "retweeted" = some (.bool false)
    ∧ vmValue (fakeTweet "42" (errMessage (parseErrorResponse "denied" Json.null)))
        "favorited" = some (.bool false)
    ∧ vmValue (fakeTweet "42" (errMessage (parseErrorResponse "denied" Json.null)))
        "entities" = some (.vmap [("hashtags", .vlist []), ("symbols", .vlist []),
          ("urls", .vlist []), ("user_mentions", .vlist [])])
    ∧ ∀ msg, handleShowStatusError ⟨false⟩ ⟨"42", .primary, false⟩ "denied" Json.null
        ≠ .emit (.error msg) :=
  showStatus_placeholder_synthesis ⟨false⟩ ⟨"42", .primary, false⟩ "denied"
    Json.null (Or.inl rfl)

/-! ### Claim C4: search de-duplication -/

theorem contains_iff (l : List String) (b : String) :
    l.contains b = true ↔ b ∈ l :=
  List.elem_iff

theorem contains_append_iff (l : List String) (a b : String) :
    (l ++ [a]).contains b = true ↔ (b ∈ l ∨ b = a) := by
  rw [contains_iff]
  simp

theorem dedupStatusesAux_sublist :
    ∀ (xs : List Json) (found : List String),
      (dedupStatusesAux found xs).Sublist (xs.map Json.toObjectFields) := by
  intro xs
  induction xs with
  | nil => intro found; simp [dedupStatusesAux]
  | cons x xs ih =>
    intro found
    simp only [dedupStatusesAux, List.map_cons]
    by_cases h : (found.contains (searchTweetKey x.toObjectFields)) = true
    · rw [if_pos h]
      exact (ih found).cons _
    · rw [if_neg h]
      exact (ih _).cons₂ _

theorem dedupStatusesAux_filter :
    ∀ (xs : List Json) (found : List String) (k : String),
      (dedupStatusesAux found xs).filter (fun o => searchTweetKey o == k)
      = if found.contains k then []
        else ((xs.map Json.toObjectFields).filter
          (fun o => searchTweetKey o == k)).take 1 := by
  intro xs
  induction xs with
  | nil => intro found k; simp [dedupStatusesAux]
  | cons x xs ih =>
    intro found k
    simp only [dedupStatusesAux, List.map_cons]
    by_cases hc : searchTweetKey x.toObjectFields ∈ found
    · rw [if_pos ((contains_iff _ _).mpr hc), ih found k]
      by_cases hk : searchTweetKey x.toObjectFields = k
      · subst hk
        simp [hc]
      · have hpred : (searchTweetKey x.toObjectFields == k) = false :=
          beq_eq_false_iff_ne.mpr hk
        simp [List.filter_cons, hpred]
    · rw [if_neg (fun h => hc ((contains_iff _ _).mp h)), List.filter_cons,
        ih _ k]
      by_cases hk : searchTweetKey x.toObjectFields = k
      · subst hk
        simp [List.filter_cons, hc]
      · have hpred : (searchTweetKey x.toObjectFields == k) = false :=
          beq_eq_false_iff_ne.mpr hk
        by_cases hkf : k ∈ found
        · simp [hpred, hkf]
        · have hks : k ≠ searchTweetKey x.toObjectFields := Ne.symm hk
          simp [List.filter_cons, hpred, hkf, hks]

theorem dedupStatusesAux_keys_nodup :
    ∀ (xs : List Json) (found : List String),
      (∀ o ∈ dedupStatusesAux found xs, searchTweetKey o ∉ found)
      ∧ ((dedupStatusesAux found xs).map searchTweetKey).Nodup := by
  intro xs
  induction xs with
  | nil => intro found; simp [dedupStatusesAux]
  | cons x xs ih =>
    intro found
    simp only [dedupStatusesAux]
    by_cases hc : searchTweetKey x.toObjectFields ∈ found
    · rw [if_pos ((contains_iff _ _).mpr hc)]; exact ih found
    · rw [if_neg (fun h => hc ((contains_iff _ _).mp h))]
      obtain ⟨hmem, hnd⟩ := ih (found ++ [searchTweetKey x.toObjectFields])
      constructor
      · intro o ho
        rcases List.mem_cons.mp ho with rfl | ho
        · exact hc
        · exact fun hin => hmem o ho (List.mem_append_left _ hin)
      · rw [List.map_cons, List.nodup_cons]
        refine ⟨?_, hnd⟩
        intro hin
        rw [List.mem_map] at hin
        obtain ⟨o, ho, heq⟩ := hin
        exact hmem o ho (List.mem_append_right _
          (by rw [heq]; exact List.mem_singleton_self _))

/-- Claim C4: the search-tweets normalizer emits one entry per underlying
status id (the retweeted status id for reshares, else the entry's own id):
it is a sublist of the decoded entries (order of first appearance
preserved), its keys are pairwise distinct, and for every key the kept
entry is exactly the first decoded entry carrying that key. -/
theorem searchTweets_dedup_spec (responseObject : List (String × Json)) :
    handleSearchTweetsFinished (.obj responseObject)
      = .successful ((dedupStatusesAux []
          ((objValue responseObject "statuses").toArrayElems)).map
            (fun o => Variant.vmap (jsonFieldsToVariantMap o)))
    ∧ (dedupStatusesAux []
        ((objValue responseObject "statuses").toArrayElems)).Sublist
        (((objValue responseObject "statuses").toArrayElems).map
          Json.toObjectFields)
    ∧ ((dedupStatusesAux []
        ((objValue responseObject "statuses").toArrayElems)).map
          searchTweetKey).Nodup
    ∧ ∀ k, (dedupStatusesAux []
          ((objValue responseObject "statuses").toArrayElems)).filter
            (fun o => searchTweetKey o == k)
        = ((((objValue responseObject "statuses").toArrayElems).map
            Json.toObjectFields).filter
              (fun o => searchTweetKey o == k)).take 1 := by
  refine ⟨rfl, dedupStatusesAux_sublist _ _,
    (dedupStatusesAux_keys_nodup _ _).2, ?_⟩
  intro k
  simpa using dedupStatusesAux_filter
    ((objValue responseObject "statuses").toArrayElems) [] k

/-! ### Claim C5: charset selection for link previews -/

/-- Claim C5: when the content-type header declares at least one charset
token and none of the declared tokens is UTF-8, the document is decoded
with the LAST declared token; in every other case (no token declared, or
UTF-8 among the tokens) it is decoded as UTF-8. -/
theorem openGraph_charset_selection (contentTypeHeader : String) :
    (extractCharsets contentTypeHeader ≠ [] →
      "UTF-8" ∉ extractCharsets contentTypeHeader →
      (extractCharsets contentTypeHeader).getLast?
        = some (selectOpenGraphCharset contentTypeHeader))
    ∧ (extractCharsets contentTypeHeader = []
        ∨ "UTF-8" ∈ extractCharsets contentTypeHeader →
      selectOpenGraphCharset contentTypeHeader = "UTF-8") := by
  constructor
  · intro hne hnu
    obtain ⟨x, hx⟩ : ∃ x, (extractCharsets contentTypeHeader).getLast? = some x := by
      cases h : (extractCharsets contentTypeHeader).getLast? with
      | none => exact absurd (List.getLast?_eq_none_iff.mp h) hne
      | some x => exact ⟨x, rfl⟩
    rw [hx]
    simp [selectOpenGraphCharset, List.length_pos, hne, hnu,
      List.getLastD_eq_getLast?, hx]
  · intro h
    rcases h with h | h
    · simp [selectOpenGraphCharset, h]
    · simp [selectOpenGraphCharset, h]

/-- Witness for C5: a header declaring a single non-UTF-8 charset makes the
selection pick that (last) token. -/
theorem openGraph_charset_selection_witness :
    (extractCharsets "text/html; charset=iso-8859-1" ≠ [] →
      "UTF-8" ∉ extractCharsets "text/html; charset=iso-8859-1" →
      (extractCharsets "text/html; charset=iso-8859-1").getLast?
        = some (selectOpenGraphCharset "text/html; charset=iso-8859-1"))
    ∧ (extractCharsets "text/html; charset=iso-8859-1" = []
        ∨ "UTF-8" ∈ extractCharsets "text/html; charset=iso-8859-1" →
      selectOpenGraphCharset "text/html; charset=iso-8859-1" = "UTF-8") :=
  openGraph_charset_selection "text/html; charset=iso-8859-1"

/-! ### Claim C6: link-preview extraction -/

/-- Projection onto the success payload of an open-graph emission. -/
def ogEmitData : OpenGraphEmit → Option (List (String × Variant))
  | .successful openGraphData => some openGraphData
  | .error _ => none

/-- Claim C6: when none of the four og meta-tag patterns matches, the
extraction reports a failure naming the source URL; when at least one
matches, the emitted result's url field equals the request URL (any og:url
capture is overwritten), and when no og:title matched the title also equals
the request URL. -/
theorem openGraph_extraction_spec (requestAddress resultDocument : String) :
    (ogFirstMatch "og:url" resultDocument = none →
      ogFirstMatch "og:image" resultDocument = none →
      ogFirstMatch "og:description" resultDocument = none →
      ogFirstMatch "og:title" resultDocument = none →
      handleGetOpenGraphTags requestAddress resultDocument
        = .error (requestAddress ++ " does not contain Open Graph data"))
    ∧ ((ogFirstMatch "og:url" resultDocument ≠ none
        ∨ ogFirstMatch "og:image" resultDocument ≠ none
        ∨ ogFirstMatch "og:description" resultDocument ≠ none
        ∨ ogFirstMatch "og:title" resultDocument ≠ none) →
      (ogEmitData (handleGetOpenGraphTags requestAddress resultDocument)).isSome
          = true
      ∧ vmValue ((ogEmitData
            (handleGetOpenGraphTags requestAddress resultDocument)).getD [])
          "url" = some (.str requestAddress)
      ∧ (ogFirstMatch "og:title" resultDocument = none →
          vmValue ((ogEmitData
              (handleGetOpenGraphTags requestAddress resultDocument)).getD [])
            "title" = some (.str requestAddress))) := by
  constructor
  · intro h1 h2 h3 h4
    simp [handleGetOpenGraphTags, h1, h2, h3, h4]
  · intro h
    rcases hu : ogFirstMatch "og:url" resultDocument with _ | u <;>
      rcases hi : ogFirstMatch "og:image" resultDocument with _ | i <;>
        rcases hd : ogFirstMatch "og:description" resultDocument with _ | d <;>
          rcases ht : ogFirstMatch "og:title" resultDocument with _ | t
    · simp [hu, hi, hd, ht] at h
    all_goals
      simp [handleGetOpenGraphTags, hu, hi, hd, ht, ogEmitData,
        vmInsert, vmValue, vmValueD, vmContains]

/-- Witness for C6: a document carrying only an og:image tag yields a
result whose url and title both equal the request URL. -/
theorem openGraph_extraction_spec_witness :
    (ogEmitData (handleGetOpenGraphTags "http://host/a"
        "<meta property=\"og:image\" content=\"img.png\">")).isSome = true
    ∧ vmValue ((ogEmitData (handleGetOpenGraphTags "http://host/a"
        "<meta property=\"og:image\" content=\"img.png\">")).getD [])
        "url" = some (.str "http://host/a")
    ∧ (ogFirstMatch "og:title"
          "<meta property=\"og:image\" content=\"img.png\">" = none →
        vmValue ((ogEmitData (handleGetOpenGraphTags "http://host/a"
            "<meta property=\"og:image\" content=\"img.png\">")).getD [])
          "title" = some (.str "http://host/a")) :=
  (openGraph_extraction_spec "http://host/a"
      "<meta property=\"og:image\" content=\"img.png\">").2
    (Or.inr (Or.inl (by decide)))

/-! ### Claim C7: routing of retweet-timeline errors -/

/-- Claim C7 is violated by twitterapi.cpp: handleRetweetTimelineError emits
the parsed message through the mentions timeline's error channel, not the
retweet timeline's own channel; the repository's refactored variant wires
the retweet timeline's own error signal into the generic failure handler. -/
theorem retweetTimelineError_misrouted :
    (handleRetweetTimelineError "Connection refused" Json.null).1
      = TimelineErrorChannel.mentionsTimelineError
    ∧ TimelineErrorChannel.mentionsTimelineError
      ≠ TimelineErrorChannel.retweetTimelineError
    ∧ (handleRetweetTimelineError "Connection refused" Json.null).2
      = errMessage (parseErrorResponse "Connection refused" Json.null)
    ∧ genericHandlerFailure retweetTimelineWiredErrorSignal
        "Connection refused" Json.null
      = (TimelineErrorChannel.retweetTimelineError,
          errMessage (parseErrorResponse "Connection refused" Json.null)) :=
  ⟨rfl, by decide, rfl, rfl⟩

/-! ### Claim C8: follow-state correction -/

theorem jsonFieldsToVariantMap_filtered_append
    (fs : List (String × Json)) (key : String) (v : Json) :
    vmValue (jsonFieldsToVariantMap
        ((fs.filter (fun p => p.1 != key)) ++ [(key, v)])) key
      = some v.toVariant := by
  induction fs with
  | nil => simp [jsonFieldsToVariantMap, vmValue, List.find?]
  | cons p fs ih =>
    by_cases h : p.1 = key
    · have hd : (p :: fs).filter (fun p => p.1 != key)
          = fs.filter (fun p => p.1 != key) := by
        simp [List.filter_cons, h]
      rw [hd]; exact ih
    · have hd : (p :: fs).filter (fun p => p.1 != key)
          = p :: fs.filter (fun p => p.1 != key) := by
        simp [List.filter_cons, h]
      rw [hd]
      simpa [jsonFieldsToVariantMap, vmValue, List.find?_cons, h] using ih

/-- Claim C8: after a follow call whose response decodes to a JSON object,
the emitted map's "following" field is true regardless of the raw payload;
symmetrically, after an unfollow it is false. -/
theorem follow_unfollow_following_override
    (responseObject : List (String × Json)) :
    (∃ m, handleFollowUserFinished (.obj responseObject) = .successful m
      ∧ vmValue m "following" = some (.bool true))
    ∧ (∃ m, handleUnfollowUserFinished (.obj responseObject) = .successful m
      ∧ vmValue m "following" = some (.bool false)) := by
  constructor
  · exact ⟨_, rfl,
      jsonFieldsToVariantMap_filtered_append responseObject "following"
        (Json.bool true)⟩
  · exact ⟨_, rfl,
      jsonFieldsToVariantMap_filtered_append responseObject "following"
        (Json.bool false)⟩

/-! ### Claim C9: empty search query short-circuit -/

/-- Claim C9: a search call (tweets or users) with an empty query string
dispatches no network exchange and synchronously emits an empty successful
list. -/
theorem search_empty_query_shortcircuit (query : String)
    (h : query.isEmpty = true) :
    searchTweets query = .syncSuccess [] ∧ searchUsers query = .syncSuccess [] := by
  constructor <;> simp [searchTweets, searchUsers, h]

/-- Witness for C9 at the empty query. -/
theorem search_empty_query_shortcircuit_witness :
    searchTweets "" = .syncSuccess [] ∧ searchUsers "" = .syncSuccess [] :=
  search_empty_query_shortcircuit "" rfl

end Piepmatz
